import Mathlib

/-!
Verification of the EduQuiz scoring engine (`src/components/Results.js`).

JS values are embedded as follows: a JS `number` becomes `ℚ` (all the
comparisons in the source are exact `===` equality, which `ℚ` equality
models faithfully); the answer slot type `number[] | number | null`
becomes the sum type `UserAnswer` (JS `undefined`, which out-of-range
indexing produces, behaves exactly like `null` in the source and is
merged into `nullA`); optional question fields become `Option`.
-/

namespace EduQuiz

/-- The `QuestionType` enum from `types.ts` (its four members appear in the
generation schema and in `Results.js`). -/
inductive QuestionType
  | SINGLE_CHOICE
  | MULTIPLE_CHOICE
  | NUMERICAL
  | SUBJECTIVE
deriving DecidableEq, Repr

/-- The `QuizQuestion` record as used by `Results.js`.  Only `question`,
`questionType` and `explanation` are required by the generation schema;
`options`, `correctAnswerIndices` and `numericalAnswer` are optional.
Indices and the numerical answer are JS numbers, embedded as `ℚ`. -/
structure QuizQuestion where
  question : String
  questionType : QuestionType
  options : Option (List String)
  correctAnswerIndices : Option (List ℚ)
  numericalAnswer : Option ℚ
  explanation : String
deriving DecidableEq, Repr

/-- One slot of the `userAnswers : (number[] | number | null)[]` array.
`nullA` covers both `null` and the `undefined` produced by out-of-range
indexing; the source treats the two identically
(`userAnswer === null || userAnswer === undefined`). -/
inductive UserAnswer
  | nullA
  | arr (l : List ℚ)
  | num (x : ℚ)
deriving DecidableEq, Repr

open QuestionType UserAnswer

/-- The body of the `questions.forEach` loop in `calculateScore`
(`Results.js` lines 16-69): the contribution of one question/answer slot
to `totalScore`.

* `null`/`undefined` answer: early `return`, contribution 0.
* `SINGLE_CHOICE`: `Array.isArray(userAnswer) && q.correctAnswerIndices &&
  userAnswer[0] === q.correctAnswerIndices[0]` gives +4, anything else −1.
  (`[]` is truthy in JS, so the guard only tests presence, and
  `userAnswer[0] === correctAnswerIndices[0]` compares the two heads as
  `Option`s — `undefined === undefined` is `true`.)
* `NUMERICAL`: +4 when the answer is a number equal to `numericalAnswer`,
  else 0.
* `MULTIPLE_CHOICE`: the source builds `Set`s from the two arrays
  (`List.toFinset` here), sets `anyWrongSelected` iff some user pick is
  outside the correct set (i.e. iff the user set is not a subset) and
  `correctSelectedCount` to the size of the intersection; no wrong pick
  and both size tests passing gives +4, no wrong pick otherwise gives
  `correctSelectedCount`, a wrong pick gives 0.
* `SUBJECTIVE`: 0. -/
def questionScore (q : QuizQuestion) (userAnswer : UserAnswer) : Int :=
  match userAnswer with
  | .nullA => 0
  | ua =>
    match q.questionType with
    | SINGLE_CHOICE =>
      match ua, q.correctAnswerIndices with
      | .arr l, some ci => if l.head? = ci.head? then 4 else -1
      | _, _ => -1
    | NUMERICAL =>
      match ua with
      | .num x => if q.numericalAnswer = some x then 4 else 0
      | _ => 0
    | MULTIPLE_CHOICE =>
      match ua, q.correctAnswerIndices with
      | .arr l, some ci =>
        let userSelections := l.toFinset
        let correctSelections := ci.toFinset
        if userSelections ⊆ correctSelections then
          if (userSelections ∩ correctSelections).card = correctSelections.card
              ∧ userSelections.card = correctSelections.card
          then 4
          else ((userSelections ∩ correctSelections).card : Int)
        else 0
      | _, _ => 0
    | SUBJECTIVE => 0

/-- `calculateScore` (`Results.js` lines 14-71): iterates over the
questions, fetching `userAnswers[index]` (out of range gives `undefined`,
i.e. `nullA`) and accumulating `questionScore`.  The recursion walks the
two lists in lockstep, which is exactly the `forEach`-with-index of the
source. -/
def calculateScore : List QuizQuestion → List UserAnswer → Int
  | [], _ => 0
  | q :: qs, userAnswers =>
      questionScore q (userAnswers.head?.getD .nullA) + calculateScore qs userAnswers.tail

/-- `totalPossibleScore` (`Results.js` lines 73-75): `reduce` adding 4 for
every non-`SUBJECTIVE` question. -/
def totalPossibleScore (questions : List QuizQuestion) : Int :=
  questions.foldl (fun acc q => if q.questionType ≠ SUBJECTIVE then acc + 4 else acc) 0

/-- JS `Math.round`: rounds half away from zero toward +∞, i.e.
`⌊x + 1/2⌋` (exact on the rationals we feed it). -/
def jsRound (x : ℚ) : Int := ⌊x + 1 / 2⌋

/-- `scorePercentage` (`Results.js` line 78):
`totalPossibleScore > 0 ? Math.round((Math.max(0, score) / totalPossibleScore) * 100) : 0`. -/
def scorePercentage (questions : List QuizQuestion) (userAnswers : List UserAnswer) : Int :=
  if 0 < totalPossibleScore questions then
    jsRound (((max 0 (calculateScore questions userAnswers) : Int) : ℚ)
      / ((totalPossibleScore questions : Int) : ℚ) * 100)
  else 0

/-- `isAnswerCompletelyCorrect` (`Results.js` lines 80-98).
`null`/`undefined` answers are `false`; `SINGLE_CHOICE` compares the heads
of the answer array and of `correctAnswerIndices` (guarded by
`Array.isArray` and presence of `correctAnswerIndices`); `NUMERICAL`
compares with `===` (an array is never `===` a number, so only a numeric
answer can match); `MULTIPLE_CHOICE` builds the user set from the array
(empty for a non-array) and the correct set from
`correctAnswerIndices || []`, then tests equal size and membership;
the `default` branch (`SUBJECTIVE`) is `false`. -/
def isAnswerCompletelyCorrect (question : QuizQuestion) (userAnswer : UserAnswer) : Bool :=
  match userAnswer with
  | .nullA => false
  | ua =>
    match question.questionType with
    | SINGLE_CHOICE =>
      match ua, question.correctAnswerIndices with
      | .arr l, some ci => decide (l.head? = ci.head?)
      | _, _ => false
    | NUMERICAL =>
      match ua with
      | .num x => decide (question.numericalAnswer = some x)
      | _ => false
    | MULTIPLE_CHOICE =>
      let userSet := (match ua with | .arr l => l | _ => ([] : List ℚ)).toFinset
      let correctSet := (question.correctAnswerIndices.getD []).toFinset
      decide (userSet.card = correctSet.card ∧ userSet ⊆ correctSet)
    | SUBJECTIVE => false

/-- The data-model invariants a well-formed question satisfies
(spec §3): a `SINGLE_CHOICE` question carries exactly one correct index,
a `MULTIPLE_CHOICE` question a non-empty list of correct indices, a
`NUMERICAL` question a numerical answer. -/
def questionInvariants (q : QuizQuestion) : Prop :=
  (q.questionType = SINGLE_CHOICE → ∃ c, q.correctAnswerIndices = some [c]) ∧
  (q.questionType = MULTIPLE_CHOICE → ∃ ci, q.correctAnswerIndices = some ci ∧ ci ≠ []) ∧
  (q.questionType = NUMERICAL → ∃ t, q.numericalAnswer = some t)

/-- Modelled from the spec: the §3 data-model invariants of a question,
as a decidable check (the code itself contains no validator).  Each
optional field is present exactly for the kinds §3 names: choice
questions carry a non-empty `options` list and a present, duplicate-free,
in-range list of correct indices (exactly one for `SINGLE_CHOICE`, one or
more for `MULTIPLE_CHOICE`) and no `numericalAnswer`; a `NUMERICAL`
question carries `numericalAnswer` and neither `options` nor
`correctAnswerIndices`; a `SUBJECTIVE` question carries none of the
three. -/
def validQuestionB (q : QuizQuestion) : Bool :=
  match q.questionType with
  | SINGLE_CHOICE =>
    match q.options, q.correctAnswerIndices with
    | some opts, some ci =>
        q.numericalAnswer.isNone &&
        decide (opts ≠ []) && decide (ci.length = 1) &&
        ci.all (fun i => decide (i ∈ (List.range opts.length).map (fun n => (n : ℚ))))
    | _, _ => false
  | MULTIPLE_CHOICE =>
    match q.options, q.correctAnswerIndices with
    | some opts, some ci =>
        q.numericalAnswer.isNone &&
        decide (opts ≠ []) && decide (ci ≠ []) && decide ci.Nodup &&
        ci.all (fun i => decide (i ∈ (List.range opts.length).map (fun n => (n : ℚ))))
    | _, _ => false
  | NUMERICAL =>
      q.options.isNone && q.correctAnswerIndices.isNone && q.numericalAnswer.isSome
  | SUBJECTIVE =>
      q.options.isNone && q.correctAnswerIndices.isNone && q.numericalAnswer.isNone

/-- Modelled from the spec: a §3-valid submitted answer for a question —
absent, or a duplicate-free set of in-range selected indices for a choice
kind, or a number for `NUMERICAL`. -/
def validAnswerB (q : QuizQuestion) (ua : UserAnswer) : Bool :=
  match ua with
  | .nullA => true
  | .arr l =>
      (decide (q.questionType = SINGLE_CHOICE) || decide (q.questionType = MULTIPLE_CHOICE)) &&
      decide l.Nodup &&
      l.all (fun i =>
        decide (i ∈ (List.range ((q.options.getD []).length)).map (fun n => (n : ℚ))))
  | .num _ => decide (q.questionType = NUMERICAL)

/-- Modelled from the spec: a fully valid input set (§3) — parallel
sequences of equal length, every question and every answer valid. -/
def validInputB (questions : List QuizQuestion) (userAnswers : List UserAnswer) : Bool :=
  decide (userAnswers.length = questions.length) &&
  questions.all validQuestionB &&
  (List.zip questions userAnswers).all (fun p => validAnswerB p.1 p.2)

/-- The error taxonomy of spec §7. -/
inductive ScoringError
  | invalidInput
deriving DecidableEq, Repr

/-- Modelled from the spec: §4.1/§7 demand that a length mismatch between
the two sequences signal `InvalidInput`, every other input scoring
normally.  The code has no such check; this definition exists only to
state that divergence. -/
def specCheckedScore (questions : List QuizQuestion) (userAnswers : List UserAnswer) :
    Except ScoringError Int :=
  if userAnswers.length = questions.length then
    Except.ok (calculateScore questions userAnswers)
  else
    Except.error ScoringError.invalidInput

/-- A single-choice question whose sole correct index is 1. -/
def exSC1 : QuizQuestion :=
  ⟨"q1", SINGLE_CHOICE, some ["a", "b", "c", "d"], some [1], none, "ex"⟩

/-- A multiple-choice question with correct set `{0, 2}`. -/
def exMC02 : QuizQuestion :=
  ⟨"q2", MULTIPLE_CHOICE, some ["a", "b", "c", "d"], some [0, 2], none, "ex"⟩

/-- A multiple-choice question with correct set `{0, 2, 3}`. -/
def exMC023 : QuizQuestion :=
  ⟨"q3", MULTIPLE_CHOICE, some ["a", "b", "c", "d"], some [0, 2, 3], none, "ex"⟩

/-- A multiple-choice question with a 5-member correct set. -/
def exMC5 : QuizQuestion :=
  ⟨"q4", MULTIPLE_CHOICE, some ["a", "b", "c", "d", "e"], some [0, 1, 2, 3, 4], none, "ex"⟩

/-- A multiple-choice question with a 6-member correct set. -/
def exMC6 : QuizQuestion :=
  ⟨"q5", MULTIPLE_CHOICE, some ["a", "b", "c", "d", "e", "f"],
    some [0, 1, 2, 3, 4, 5], none, "ex"⟩

/-- A numerical question with target 42. -/
def exNum42 : QuizQuestion := ⟨"q6", NUMERICAL, none, none, some 42, "ex"⟩

/-- A subjective question. -/
def exSubj : QuizQuestion := ⟨"q7", SUBJECTIVE, none, none, none, "ex"⟩

/-- Spec §8 scenario F: one correct single choice, one unanswered
numerical, one subjective question. -/
def exMixed : List QuizQuestion := [exSC1, exNum42, exSubj]

/-- The answers of scenario F. -/
def exMixedAnswers : List UserAnswer := [.arr [1], .nullA, .nullA]

end EduQuiz

namespace EduQuiz

open QuestionType UserAnswer

lemma questionScore_nullA (q : QuizQuestion) : questionScore q .nullA = 0 := rfl

lemma questionScore_sc_arr (q : QuizQuestion) (ci : List ℚ)
    (hq : q.questionType = SINGLE_CHOICE) (hci : q.correctAnswerIndices = some ci)
    (l : List ℚ) :
    questionScore q (.arr l) = if l.head? = ci.head? then 4 else -1 := by
  simp [questionScore, hq, hci]

lemma questionScore_sc_num (q : QuizQuestion)
    (hq : q.questionType = SINGLE_CHOICE) (x : ℚ) :
    questionScore q (.num x) = -1 := by
  simp [questionScore, hq]

lemma questionScore_num_num (q : QuizQuestion)
    (hq : q.questionType = NUMERICAL) (x : ℚ) :
    questionScore q (.num x) = if q.numericalAnswer = some x then 4 else 0 := by
  simp [questionScore, hq]

lemma questionScore_num_arr (q : QuizQuestion)
    (hq : q.questionType = NUMERICAL) (l : List ℚ) :
    questionScore q (.arr l) = 0 := by
  simp [questionScore, hq]

lemma questionScore_mc_arr (q : QuizQuestion) (ci : List ℚ)
    (hq : q.questionType = MULTIPLE_CHOICE) (hci : q.correctAnswerIndices = some ci)
    (l : List ℚ) :
    questionScore q (.arr l) =
      if l.toFinset ⊆ ci.toFinset then
        if (l.toFinset ∩ ci.toFinset).card = ci.toFinset.card
            ∧ l.toFinset.card = ci.toFinset.card
        then 4
        else ((l.toFinset ∩ ci.toFinset).card : Int)
      else 0 := by
  simp [questionScore, hq, hci]

lemma questionScore_mc_num (q : QuizQuestion)
    (hq : q.questionType = MULTIPLE_CHOICE) (x : ℚ) :
    questionScore q (.num x) = 0 := by
  simp [questionScore, hq]

lemma questionScore_subj (q : QuizQuestion)
    (hq : q.questionType = SUBJECTIVE) (ua : UserAnswer) :
    questionScore q ua = 0 := by
  cases ua <;> simp [questionScore, hq]

lemma questionScore_mc_eqset (q : QuizQuestion) (ci : List ℚ)
    (hq : q.questionType = MULTIPLE_CHOICE) (hci : q.correctAnswerIndices = some ci)
    (l : List ℚ) (heq : l.toFinset = ci.toFinset) :
    questionScore q (.arr l) = 4 := by
  rw [questionScore_mc_arr q ci hq hci l, if_pos (heq ▸ Finset.Subset.refl _),
    if_pos ⟨by rw [heq, Finset.inter_self], by rw [heq]⟩]

lemma questionScore_mc_ssubset (q : QuizQuestion) (ci : List ℚ)
    (hq : q.questionType = MULTIPLE_CHOICE) (hci : q.correctAnswerIndices = some ci)
    (l : List ℚ) (hss : l.toFinset ⊂ ci.toFinset) :
    questionScore q (.arr l) = (l.toFinset.card : Int) := by
  have hsub : l.toFinset ⊆ ci.toFinset := hss.subset
  have hinter : l.toFinset ∩ ci.toFinset = l.toFinset := Finset.inter_eq_left.mpr hsub
  have hlt : l.toFinset.card < ci.toFinset.card := Finset.card_lt_card hss
  rw [questionScore_mc_arr q ci hq hci l, if_pos hsub, if_neg, hinter]
  rw [hinter]
  rintro ⟨h1, -⟩
  exact absurd h1 hlt.ne

lemma questionScore_mc_notsubset (q : QuizQuestion) (ci : List ℚ)
    (hq : q.questionType = MULTIPLE_CHOICE) (hci : q.correctAnswerIndices = some ci)
    (l : List ℚ) (hw : ¬ l.toFinset ⊆ ci.toFinset) :
    questionScore q (.arr l) = 0 := by
  rw [questionScore_mc_arr q ci hq hci l, if_neg hw]

lemma questionScore_mc_none (q : QuizQuestion)
    (hq : q.questionType = MULTIPLE_CHOICE) (hci : q.correctAnswerIndices = none)
    (l : List ℚ) :
    questionScore q (.arr l) = 0 := by
  simp [questionScore, hq, hci]

lemma iac_nullA (q : QuizQuestion) : isAnswerCompletelyCorrect q .nullA = false := rfl

lemma iac_sc_arr (q : QuizQuestion) (ci : List ℚ)
    (hq : q.questionType = SINGLE_CHOICE) (hci : q.correctAnswerIndices = some ci)
    (l : List ℚ) :
    isAnswerCompletelyCorrect q (.arr l) = decide (l.head? = ci.head?) := by
  simp [isAnswerCompletelyCorrect, hq, hci]

lemma iac_sc_num (q : QuizQuestion)
    (hq : q.questionType = SINGLE_CHOICE) (x : ℚ) :
    isAnswerCompletelyCorrect q (.num x) = false := by
  simp [isAnswerCompletelyCorrect, hq]

lemma iac_num_num (q : QuizQuestion)
    (hq : q.questionType = NUMERICAL) (x : ℚ) :
    isAnswerCompletelyCorrect q (.num x) = decide (q.numericalAnswer = some x) := by
  simp [isAnswerCompletelyCorrect, hq]

lemma iac_num_arr (q : QuizQuestion)
    (hq : q.questionType = NUMERICAL) (l : List ℚ) :
    isAnswerCompletelyCorrect q (.arr l) = false := by
  simp [isAnswerCompletelyCorrect, hq]

lemma iac_mc_arr (q : QuizQuestion)
    (hq : q.questionType = MULTIPLE_CHOICE) (l : List ℚ) :
    isAnswerCompletelyCorrect q (.arr l) =
      decide (l.toFinset.card = ((q.correctAnswerIndices.getD []).toFinset).card
        ∧ l.toFinset ⊆ (q.correctAnswerIndices.getD []).toFinset) := by
  simp [isAnswerCompletelyCorrect, hq]

lemma iac_mc_num (q : QuizQuestion)
    (hq : q.questionType = MULTIPLE_CHOICE) (x : ℚ) :
    isAnswerCompletelyCorrect q (.num x) =
      decide (((q.correctAnswerIndices.getD []).toFinset) = ∅) := by
  simp only [isAnswerCompletelyCorrect, hq]
  rw [decide_eq_decide]
  constructor
  · rintro ⟨h1, -⟩
    exact Finset.card_eq_zero.mp (by simpa using h1.symm)
  · intro h
    exact ⟨by simp [h], by simp [h]⟩

lemma iac_subj (q : QuizQuestion)
    (hq : q.questionType = SUBJECTIVE) (ua : UserAnswer) :
    isAnswerCompletelyCorrect q ua = false := by
  cases ua <;> simp [isAnswerCompletelyCorrect, hq]

lemma totalPossibleScore_foldl (questions : List QuizQuestion) :
    ∀ a : Int,
      questions.foldl (fun acc q => if q.questionType ≠ SUBJECTIVE then acc + 4 else acc) a
        = a + totalPossibleScore questions := by
  induction questions with
  | nil => intro a; simp [totalPossibleScore]
  | cons q qs ih =>
    intro a
    rw [totalPossibleScore, List.foldl_cons, List.foldl_cons, ih, ih]
    by_cases h : q.questionType = SUBJECTIVE <;> simp [h] <;> ring

lemma totalPossibleScore_cons (q : QuizQuestion) (qs : List QuizQuestion) :
    totalPossibleScore (q :: qs) =
      (if q.questionType ≠ SUBJECTIVE then 4 else 0) + totalPossibleScore qs := by
  rw [totalPossibleScore, List.foldl_cons, totalPossibleScore_foldl]
  by_cases h : q.questionType = SUBJECTIVE <;> simp [h]

lemma totalPossibleScore_nonneg (questions : List QuizQuestion) :
    0 ≤ totalPossibleScore questions := by
  induction questions with
  | nil => simp [totalPossibleScore]
  | cons q qs ih =>
    rw [totalPossibleScore_cons]
    by_cases h : q.questionType = SUBJECTIVE <;> simp [h] <;> omega

lemma totalPossibleScore_eq_countP (questions : List QuizQuestion) :
    totalPossibleScore questions
      = 4 * ((questions.countP fun q => decide (q.questionType ≠ SUBJECTIVE)) : Int) := by
  induction questions with
  | nil => simp [totalPossibleScore]
  | cons q qs ih =>
    rw [totalPossibleScore_cons, List.countP_cons, ih]
    by_cases h : q.questionType = SUBJECTIVE <;> simp [h] <;> push_cast <;> ring

lemma questionScore_le_four (q : QuizQuestion)
    (h5 : q.questionType = MULTIPLE_CHOICE →
      ∀ ci, q.correctAnswerIndices = some ci → ci.toFinset.card ≤ 5)
    (ua : UserAnswer) :
    questionScore q ua ≤ if q.questionType = SUBJECTIVE then 0 else 4 := by
  rcases hty : q.questionType with _ | _ | _ | _
  · -- SINGLE_CHOICE
    rw [if_neg (by simp)]
    cases ua with
    | nullA => rw [questionScore_nullA]; omega
    | num x => rw [questionScore_sc_num q hty x]; omega
    | arr l =>
      rcases hci : q.correctAnswerIndices with _ | ci
      · simp [questionScore, hty, hci]
      · rw [questionScore_sc_arr q ci hty hci l]
        split <;> omega
  · -- MULTIPLE_CHOICE
    rw [if_neg (by simp)]
    cases ua with
    | nullA => rw [questionScore_nullA]; omega
    | num x => rw [questionScore_mc_num q hty x]; omega
    | arr l =>
      rcases hci : q.correctAnswerIndices with _ | ci
      · rw [questionScore_mc_none q hty hci l]; omega
      · by_cases hsub : l.toFinset ⊆ ci.toFinset
        · by_cases heq : l.toFinset = ci.toFinset
          · rw [questionScore_mc_eqset q ci hty hci l heq]
          · have hss : l.toFinset ⊂ ci.toFinset :=
              Finset.ssubset_iff_subset_ne.mpr ⟨hsub, heq⟩
            rw [questionScore_mc_ssubset q ci hty hci l hss]
            have hlt : l.toFinset.card < ci.toFinset.card := Finset.card_lt_card hss
            have hle : ci.toFinset.card ≤ 5 := h5 hty ci hci
            omega
        · rw [questionScore_mc_notsubset q ci hty hci l hsub]; omega
  · -- NUMERICAL
    rw [if_neg (by simp)]
    cases ua with
    | nullA => rw [questionScore_nullA]; omega
    | num x => rw [questionScore_num_num q hty x]; split <;> omega
    | arr l => rw [questionScore_num_arr q hty l]; omega
  · -- SUBJECTIVE
    rw [if_pos rfl, questionScore_subj q hty ua]

lemma calculateScore_le (questions : List QuizQuestion) (userAnswers : List UserAnswer)
    (h5 : ∀ q ∈ questions, q.questionType = MULTIPLE_CHOICE →
      ∀ ci, q.correctAnswerIndices = some ci → ci.toFinset.card ≤ 5) :
    calculateScore questions userAnswers ≤ totalPossibleScore questions := by
  induction questions generalizing userAnswers with
  | nil => simp [calculateScore, totalPossibleScore]
  | cons q qs ih =>
    rw [calculateScore, totalPossibleScore_cons]
    have h1 := questionScore_le_four q
      (h5 q (List.mem_cons_self q qs)) (userAnswers.head?.getD .nullA)
    have h2 := ih userAnswers.tail fun p hp => h5 p (List.mem_cons_of_mem q hp)
    by_cases h : q.questionType = SUBJECTIVE
    · rw [if_pos h] at h1
      rw [if_neg (by simp [h])]
      omega
    · rw [if_neg h] at h1
      rw [if_pos (by simp [h])]
      omega

lemma jsRound_nonneg (x : ℚ) (h : 0 ≤ x) : 0 ≤ jsRound x := by
  rw [jsRound]
  have : (0 : ℚ) ≤ x + 1 / 2 := by linarith
  exact Int.floor_nonneg.mpr this

lemma jsRound_le_100 (x : ℚ) (h : x ≤ 100) : jsRound x ≤ 100 := by
  rw [jsRound]
  have h1 : x + 1 / 2 ≤ (201 : ℚ) / 2 := by linarith
  calc ⌊x + 1 / 2⌋ ≤ ⌊(201 : ℚ) / 2⌋ := Int.floor_le_floor h1
    _ = 100 := by norm_num

lemma scorePercentage_nonneg (questions : List QuizQuestion) (userAnswers : List UserAnswer) :
    0 ≤ scorePercentage questions userAnswers := by
  rw [scorePercentage]
  split
  · apply jsRound_nonneg
    have hp : (0 : ℚ) < ((totalPossibleScore questions : Int) : ℚ) := by
      exact_mod_cast (by assumption : 0 < totalPossibleScore questions)
    have hm : (0 : ℚ) ≤ ((max 0 (calculateScore questions userAnswers) : Int) : ℚ) := by
      exact_mod_cast le_max_left 0 (calculateScore questions userAnswers)
    positivity
  · omega

lemma scorePercentage_le_100 (questions : List QuizQuestion) (userAnswers : List UserAnswer)
    (h5 : ∀ q ∈ questions, q.questionType = MULTIPLE_CHOICE →
      ∀ ci, q.correctAnswerIndices = some ci → ci.toFinset.card ≤ 5) :
    scorePercentage questions userAnswers ≤ 100 := by
  rw [scorePercentage]
  split
  · rename_i hpos
    apply jsRound_le_100
    have hle : max 0 (calculateScore questions userAnswers) ≤ totalPossibleScore questions :=
      max_le (le_of_lt hpos) (calculateScore_le questions userAnswers h5)
    have hposq : (0 : ℚ) < ((totalPossibleScore questions : Int) : ℚ) := by exact_mod_cast hpos
    have hleq : ((max 0 (calculateScore questions userAnswers) : Int) : ℚ)
        ≤ ((totalPossibleScore questions : Int) : ℚ) := by exact_mod_cast hle
    have hdiv : ((max 0 (calculateScore questions userAnswers) : Int) : ℚ)
        / ((totalPossibleScore questions : Int) : ℚ) ≤ 1 :=
      (div_le_one hposq).mpr hleq
    nlinarith
  · omega

lemma calculateScore_pad :
    ∀ (questions : List QuizQuestion) (userAnswers : List UserAnswer),
      calculateScore questions userAnswers
        = calculateScore questions
            (userAnswers.take questions.length
              ++ List.replicate (questions.length - userAnswers.length) UserAnswer.nullA) := by
  intro questions
  induction questions with
  | nil => intro userAnswers; rfl
  | cons q qs ih =>
    intro userAnswers
    cases userAnswers with
    | nil =>
      rw [calculateScore, calculateScore]
      simp only [List.take_nil, List.nil_append, List.length_nil, Nat.sub_zero,
        List.length_cons, List.replicate_succ, List.head?_nil, List.head?_cons,
        Option.getD_none, Option.getD_some, List.tail_nil, List.tail_cons]
      rw [ih []]
      simp
    | cons a rest =>
      rw [calculateScore, calculateScore]
      simp only [List.length_cons, List.take_succ_cons, List.cons_append,
        List.head?_cons, Option.getD_some, List.tail_cons, Nat.succ_sub_succ]
      rw [ih rest]

/-- C1: for a MultipleChoice question whose submitted index set contains no
index outside the correct set, the contribution is exactly +4 when the
submitted set equals the correct set, and exactly the number of correctly
selected indices (the size of the submitted set, since it is a subset)
when it is a non-empty proper subset of the correct set. -/
theorem multipleChoice_noWrong_score (q : QuizQuestion) (ci l : List ℚ)
    (hq : q.questionType = MULTIPLE_CHOICE)
    (hci : q.correctAnswerIndices = some ci)
    (hsub : l.toFinset ⊆ ci.toFinset) :
    (l.toFinset = ci.toFinset → questionScore q (.arr l) = 4) ∧
    (l.toFinset ≠ ci.toFinset → l.toFinset.Nonempty →
      questionScore q (.arr l) = (l.toFinset.card : Int)) := by
  refine ⟨fun heq => questionScore_mc_eqset q ci hq hci l heq, fun hne _ => ?_⟩
  exact questionScore_mc_ssubset q ci hq hci l (Finset.ssubset_iff_subset_ne.mpr ⟨hsub, hne⟩)

/-- Witness for C1: correct set `{0, 2}` — submitting `{0, 2}` earns 4,
submitting `{0}` earns 1. -/
theorem multipleChoice_noWrong_score_witness :
    (([0, 2] : List ℚ).toFinset ⊆ ([0, 2] : List ℚ).toFinset ∧
      questionScore exMC02 (.arr [0, 2]) = 4) ∧
    (([0] : List ℚ).toFinset ⊆ ([0, 2] : List ℚ).toFinset ∧
      questionScore exMC02 (.arr [0]) = 1) := by
  constructor
  · exact ⟨by decide,
      (multipleChoice_noWrong_score exMC02 [0, 2] [0, 2] rfl rfl (by decide)).1 (by decide)⟩
  · refine ⟨by decide, ?_⟩
    have h := (multipleChoice_noWrong_score exMC02 [0, 2] [0] rfl rfl (by decide)).2
      (by decide) (by decide)
    rw [h]; decide

/-- C2: for a MultipleChoice question whose submitted index set contains at
least one index not in the correct set, the contribution is exactly 0,
regardless of how many correct indices are also selected; no negative
marking is applied. -/
theorem multipleChoice_wrongPick_zero (q : QuizQuestion) (ci l : List ℚ)
    (hq : q.questionType = MULTIPLE_CHOICE)
    (hci : q.correctAnswerIndices = some ci)
    (hw : ∃ x ∈ l.toFinset, x ∉ ci.toFinset) :
    questionScore q (.arr l) = 0 := by
  apply questionScore_mc_notsubset q ci hq hci l
  rcases hw with ⟨x, hx, hnx⟩
  exact fun hsub => hnx (hsub hx)

/-- Witness for C2: correct set `{0, 2}`, submitted `{0, 1}` (one correct
pick plus one wrong pick) earns 0. -/
theorem multipleChoice_wrongPick_zero_witness :
    (∃ x ∈ ([0, 1] : List ℚ).toFinset, x ∉ ([0, 2] : List ℚ).toFinset) ∧
    questionScore exMC02 (.arr [0, 1]) = 0 :=
  ⟨by decide, multipleChoice_wrongPick_zero exMC02 [0, 2] [0, 1] rfl rfl (by decide)⟩

/-- C3 counterexample: a SingleChoice question with sole correct index 1
and submitted answer `[1, 2]` — the submitted index set `{1, 2}` is not
the singleton correct set, so the claim demands −1, but the code only
compares the first elements and awards +4. -/
theorem singleChoice_setEquality_counterexample :
    (([1, 2] : List ℚ).toFinset ≠ ([1] : List ℚ).toFinset) ∧
    questionScore exSC1 (.arr [1, 2]) = 4 := by
  exact ⟨by decide, by decide⟩

/-- C3 amended: for a SingleChoice question with singleton correct index
list `[c]`, an array answer contributes +4 iff its FIRST element equals
`c` (later elements are ignored), any other non-null answer (a bare
number, or an array whose first element differs) contributes −1, and an
absent answer contributes 0. -/
theorem singleChoice_score_corrected (q : QuizQuestion) (c : ℚ)
    (hq : q.questionType = SINGLE_CHOICE)
    (hci : q.correctAnswerIndices = some [c]) :
    (∀ l : List ℚ, questionScore q (.arr l) = if l.head? = some c then 4 else -1) ∧
    (∀ x : ℚ, questionScore q (.num x) = -1) ∧
    questionScore q .nullA = 0 := by
  refine ⟨fun l => ?_, fun x => questionScore_sc_num q hq x, questionScore_nullA q⟩
  simpa using questionScore_sc_arr q [c] hq hci l

/-- Witness for the amended C3 on a concrete SingleChoice question. -/
theorem singleChoice_score_corrected_witness :
    questionScore exSC1 (.arr [1]) = 4 ∧
    questionScore exSC1 (.arr [0]) = -1 ∧
    questionScore exSC1 (.num 1) = -1 ∧
    questionScore exSC1 .nullA = 0 := by
  have h := singleChoice_score_corrected exSC1 1 rfl rfl
  refine ⟨?_, ?_, h.2.1 1, h.2.2⟩
  · rw [h.1 [1]]; decide
  · rw [h.1 [0]]; decide

/-- C4: for a Numerical question, a numeric answer equal to
`numericalAnswer` contributes +4, a numeric answer different from it
contributes 0, an absent answer contributes 0, and the contribution is
never negative for any input. -/
theorem numerical_score_spec (q : QuizQuestion) (hq : q.questionType = NUMERICAL) :
    (∀ t, q.numericalAnswer = some t →
      questionScore q (.num t) = 4 ∧ ∀ x, x ≠ t → questionScore q (.num x) = 0) ∧
    questionScore q .nullA = 0 ∧
    (∀ ua, 0 ≤ questionScore q ua) := by
  refine ⟨fun t ht => ⟨?_, fun x hx => ?_⟩, questionScore_nullA q, fun ua => ?_⟩
  · rw [questionScore_num_num q hq t, if_pos ht]
  · rw [questionScore_num_num q hq x, if_neg]
    rw [ht]
    simp only [Option.some_inj]
    exact fun h => hx h.symm
  · cases ua with
    | nullA => rw [questionScore_nullA]
    | arr l => rw [questionScore_num_arr q hq l]
    | num x => rw [questionScore_num_num q hq x]; split <;> omega

/-- Witness for C4 on the Numerical question with target 42. -/
theorem numerical_score_spec_witness :
    questionScore exNum42 (.num 42) = 4 ∧
    questionScore exNum42 (.num 41) = 0 ∧
    questionScore exNum42 .nullA = 0 ∧
    0 ≤ questionScore exNum42 (.arr [3]) := by
  have h := numerical_score_spec exNum42 rfl
  exact ⟨(h.1 42 rfl).1, (h.1 42 rfl).2 41 (by norm_num), h.2.1, h.2.2 (.arr [3])⟩

/-- C5 counterexample: a fully §3-valid input (one MultipleChoice question
with six options, correct set `{0, 1, 2, 3, 4, 5}`, submitted set
`{0, 1, 2, 3, 4}`) whose displayed percentage is 125: the uncapped
per-pick credit yields 5 points while the possible score is 4. -/
theorem percentage_exceeds_100_counterexample :
    validInputB [exMC6] [.arr [0, 1, 2, 3, 4]] = true ∧
    scorePercentage [exMC6] [.arr [0, 1, 2, 3, 4]] = 125 := by
  refine ⟨by decide, ?_⟩
  have hs : calculateScore [exMC6] [.arr [0, 1, 2, 3, 4]] = 5 := by decide
  have ht : totalPossibleScore [exMC6] = 4 := by decide
  rw [scorePercentage, hs, ht]
  norm_num [jsRound]

/-- C5 amended: the displayed percentage equals
`round(max(0, earned) / possible × 100)` when the possible score is
positive and 0 otherwise; it is never negative; and it never exceeds 100
provided every MultipleChoice question's correct set has at most 5
distinct members (without that bound the uncapped per-pick credit can
push the earned score above the possible score). -/
theorem scorePercentage_spec (questions : List QuizQuestion) (userAnswers : List UserAnswer) :
    scorePercentage questions userAnswers
      = (if 0 < totalPossibleScore questions then
          jsRound (((max 0 (calculateScore questions userAnswers) : Int) : ℚ)
            / ((totalPossibleScore questions : Int) : ℚ) * 100)
        else 0) ∧
    0 ≤ scorePercentage questions userAnswers ∧
    ((∀ q ∈ questions, q.questionType = MULTIPLE_CHOICE →
        ∀ ci, q.correctAnswerIndices = some ci → ci.toFinset.card ≤ 5) →
      scorePercentage questions userAnswers ≤ 100) :=
  ⟨rfl, scorePercentage_nonneg questions userAnswers,
    fun h5 => scorePercentage_le_100 questions userAnswers h5⟩

/-- Witness for the amended C5 on the scenario-F input. -/
theorem scorePercentage_spec_witness :
    0 ≤ scorePercentage exMixed exMixedAnswers ∧
    scorePercentage exMixed exMixedAnswers ≤ 100 :=
  ⟨(scorePercentage_spec exMixed exMixedAnswers).2.1,
   (scorePercentage_spec exMixed exMixedAnswers).2.2 (by
      intro q hq hmc
      simp only [exMixed, List.mem_cons, List.mem_singleton] at hq
      rcases hq with rfl | rfl | rfl | h
      · exact absurd hmc (by decide)
      · exact absurd hmc (by decide)
      · exact absurd hmc (by decide)
      · cases h)⟩

/-- C6 counterexample: the verdict classification marks the answer
`[1, 2]` to a SingleChoice question with correct singleton `{1}` as fully
correct, although the submitted index set is not the singleton correct
set — the code only compares first elements. -/
theorem verdict_setEquality_counterexample :
    isAnswerCompletelyCorrect exSC1 (.arr [1, 2]) = true ∧
    (([1, 2] : List ℚ).toFinset ≠ ([1] : List ℚ).toFinset) := by
  exact ⟨by decide, by decide⟩

/-- C6 amended: the verdict classification marks a question fully correct
iff — SingleChoice: the submitted answer is an array whose FIRST element
equals the sole correct index (not full set equality); Numerical: the
submitted answer is a number equal to the target; MultipleChoice: the
submitted set equals the correct set in size and membership; and a
Subjective question or an absent answer is never fully correct. -/
theorem verdict_spec_corrected (q : QuizQuestion) :
    (∀ c : ℚ, q.questionType = SINGLE_CHOICE → q.correctAnswerIndices = some [c] →
      (∀ l : List ℚ,
        (isAnswerCompletelyCorrect q (.arr l) = true ↔ l.head? = some c)) ∧
      (∀ x : ℚ, isAnswerCompletelyCorrect q (.num x) = false)) ∧
    (∀ t : ℚ, q.questionType = NUMERICAL → q.numericalAnswer = some t →
      (∀ x : ℚ, (isAnswerCompletelyCorrect q (.num x) = true ↔ x = t)) ∧
      (∀ l : List ℚ, isAnswerCompletelyCorrect q (.arr l) = false)) ∧
    (∀ ci : List ℚ, q.questionType = MULTIPLE_CHOICE → q.correctAnswerIndices = some ci →
      ci ≠ [] →
      (∀ l : List ℚ,
        (isAnswerCompletelyCorrect q (.arr l) = true ↔ l.toFinset = ci.toFinset)) ∧
      (∀ x : ℚ, isAnswerCompletelyCorrect q (.num x) = false)) ∧
    (q.questionType = SUBJECTIVE → ∀ ua, isAnswerCompletelyCorrect q ua = false) ∧
    isAnswerCompletelyCorrect q .nullA = false := by
  refine ⟨fun c hq hci => ⟨fun l => ?_, fun x => iac_sc_num q hq x⟩,
    fun t hq ht => ⟨fun x => ?_, fun l => iac_num_arr q hq l⟩,
    fun ci hq hci hne => ⟨fun l => ?_, fun x => ?_⟩,
    fun hq ua => iac_subj q hq ua, iac_nullA q⟩
  · rw [iac_sc_arr q [c] hq hci l]
    simp
  · rw [iac_num_num q hq x, ht]
    simp [eq_comm]
  · rw [iac_mc_arr q hq l, hci]
    simp only [Option.getD_some, decide_eq_true_eq]
    constructor
    · rintro ⟨hcard, hsub⟩
      exact Finset.eq_of_subset_of_card_le hsub (le_of_eq hcard.symm)
    · intro heq
      exact ⟨by rw [heq], heq ▸ Finset.Subset.refl _⟩
  · rw [iac_mc_num q hq x, hci]
    simp only [Option.getD_some, decide_eq_false_iff_not]
    exact fun h => hne (List.toFinset_eq_empty_iff ci |>.mp h)

/-- Witness for the amended C6 on concrete questions of every kind. -/
theorem verdict_spec_corrected_witness :
    isAnswerCompletelyCorrect exSC1 (.arr [1]) = true ∧
    isAnswerCompletelyCorrect exNum42 (.num 42) = true ∧
    isAnswerCompletelyCorrect exMC02 (.arr [2, 0]) = true ∧
    isAnswerCompletelyCorrect exMC02 (.arr [0]) = false ∧
    isAnswerCompletelyCorrect exSubj (.num 3) = false ∧
    isAnswerCompletelyCorrect exSC1 .nullA = false := by
  refine ⟨?_, ?_, ?_, ?_, ?_, ?_⟩
  · exact (((verdict_spec_corrected exSC1).1 1 rfl rfl).1 [1]).mpr (by decide)
  · exact (((verdict_spec_corrected exNum42).2.1 42 rfl rfl).1 42).mpr rfl
  · exact (((verdict_spec_corrected exMC02).2.2.1 [0, 2] rfl rfl (by decide)).1 [2, 0]).mpr
      (by decide)
  · have h := ((verdict_spec_corrected exMC02).2.2.1 [0, 2] rfl rfl (by decide)).1 [0]
    have hne : ¬ (([0] : List ℚ).toFinset = ([0, 2] : List ℚ).toFinset) := by decide
    cases hb : isAnswerCompletelyCorrect exMC02 (.arr [0]) with
    | false => rfl
    | true => exact absurd (h.mp hb) hne
  · exact (verdict_spec_corrected exSubj).2.2.2.1 rfl (.num 3)
  · exact (verdict_spec_corrected exSC1).2.2.2.2

/-- C7 counterexample: with one question and an empty answer list (a
length mismatch) the spec demands an `InvalidInput` error, but
`calculateScore` is total and returns the ordinary score 0, treating the
missing slot as unanswered. -/
theorem lengthMismatch_counterexample :
    specCheckedScore [exSC1] [] = Except.error ScoringError.invalidInput ∧
    calculateScore [exSC1] [] = 0 :=
  ⟨rfl, by decide⟩

/-- C7 amended: the scoring call never signals any error; on every input
it behaves as if the answer list were truncated to the question count and
padded with nulls, so a length mismatch is silently handled by treating
missing slots as unanswered and ignoring extra answers (malformed answer
values are likewise scored as unanswered/incorrect, never raised). -/
theorem calculateScore_never_raises :
    ∀ (questions : List QuizQuestion) (userAnswers : List UserAnswer),
      calculateScore questions userAnswers
        = calculateScore questions
            (userAnswers.take questions.length
              ++ List.replicate (questions.length - userAnswers.length) UserAnswer.nullA) :=
  calculateScore_pad

/-- C8 counterexample: correct set `{0, 1, 2, 3, 4}` (more than one
member) and submitted set `{0, 1, 2, 3}`, a non-empty strict subset with
zero wrong picks — the contribution is 4, not strictly less than 4 as
claimed. -/
theorem subsetCredit_counterexample :
    (1 < ([0, 1, 2, 3, 4] : List ℚ).toFinset.card) ∧
    ([0, 1, 2, 3] : List ℚ).toFinset ⊂ ([0, 1, 2, 3, 4] : List ℚ).toFinset ∧
    (([0, 1, 2, 3] : List ℚ).toFinset).Nonempty ∧
    questionScore exMC5 (.arr [0, 1, 2, 3]) = 4 := by
  refine ⟨by decide, by decide, by decide, by decide⟩

/-- C8 amended: for a MultipleChoice question whose correct set has more
than one member and whose submitted answer is a non-empty strict subset
of the correct set with zero wrong picks, the contribution equals the
size of the submitted subset, which is strictly less than the size of the
correct set — and it is strictly below 4 whenever the correct set has at
most 4 members (with 5 or more the credit can reach or exceed 4). -/
theorem multipleChoice_subsetCredit_bound (q : QuizQuestion) (ci l : List ℚ)
    (hq : q.questionType = MULTIPLE_CHOICE)
    (hci : q.correctAnswerIndices = some ci)
    (hcard : 1 < ci.toFinset.card)
    (hss : l.toFinset ⊂ ci.toFinset)
    (hne : l.toFinset.Nonempty) :
    questionScore q (.arr l) = (l.toFinset.card : Int) ∧
    l.toFinset.card < ci.toFinset.card ∧
    (ci.toFinset.card ≤ 4 → questionScore q (.arr l) < 4) := by
  have h1 := questionScore_mc_ssubset q ci hq hci l hss
  have h2 := Finset.card_lt_card hss
  refine ⟨h1, h2, fun h4 => ?_⟩
  rw [h1]
  omega

/-- Witness for the amended C8: correct set `{0, 2, 3}`, submitted
`{0, 2}` — credit 2, strictly below 4. -/
theorem multipleChoice_subsetCredit_bound_witness :
    questionScore exMC023 (.arr [0, 2]) = 2 ∧ questionScore exMC023 (.arr [0, 2]) < 4 := by
  have h := multipleChoice_subsetCredit_bound exMC023 [0, 2, 3] [0, 2] rfl rfl
    (by decide) (by decide) (by decide)
  refine ⟨?_, h.2.2 (by decide)⟩
  rw [h.1]; decide

/-- C9: for every question sequence, including the empty one, the total
possible score is 4 times the number of non-Subjective questions, and a
Subjective question contributes nothing to the earned total regardless of
its answer slot (so it changes neither earned nor possible totals). -/
theorem possibleScore_and_subjective :
    (∀ questions : List QuizQuestion,
      totalPossibleScore questions
        = 4 * ((questions.countP fun q => decide (q.questionType ≠ SUBJECTIVE)) : Int)) ∧
    (∀ (q : QuizQuestion) (ua : UserAnswer),
      q.questionType = SUBJECTIVE → questionScore q ua = 0) :=
  ⟨totalPossibleScore_eq_countP, fun q ua h => questionScore_subj q h ua⟩

/-- Witness for C9 on the scenario-F list, the empty list and a concrete
Subjective question. -/
theorem possibleScore_and_subjective_witness :
    totalPossibleScore exMixed = 8 ∧
    totalPossibleScore ([] : List QuizQuestion) = 0 ∧
    questionScore exSubj (.num 3) = 0 := by
  refine ⟨?_, ?_, possibleScore_and_subjective.2 exSubj (.num 3) rfl⟩
  · rw [possibleScore_and_subjective.1 exMixed]; decide
  · rw [possibleScore_and_subjective.1 []]; decide

/-- C10: for every question satisfying the data-model invariants
(singleton correct list for SingleChoice, non-empty correct list for
MultipleChoice, target present for Numerical) and every submitted answer,
a verdict of fully correct implies a score contribution of exactly +4. -/
theorem fullyCorrect_implies_four (q : QuizQuestion) (ua : UserAnswer)
    (hinv : questionInvariants q)
    (hc : isAnswerCompletelyCorrect q ua = true) :
    questionScore q ua = 4 := by
  obtain ⟨hsc, hmc, hnum⟩ := hinv
  rcases hty : q.questionType with _ | _ | _ | _
  · -- SINGLE_CHOICE
    obtain ⟨c, hci⟩ := hsc hty
    cases ua with
    | nullA => rw [iac_nullA] at hc; cases hc
    | num x => rw [iac_sc_num q hty x] at hc; cases hc
    | arr l =>
      rw [iac_sc_arr q [c] hty hci l] at hc
      rw [questionScore_sc_arr q [c] hty hci l, if_pos (of_decide_eq_true hc)]
  · -- MULTIPLE_CHOICE
    obtain ⟨ci, hci, hcine⟩ := hmc hty
    cases ua with
    | nullA => rw [iac_nullA] at hc; cases hc
    | num x =>
      rw [iac_mc_num q hty x, hci] at hc
      have h0 := of_decide_eq_true hc
      simp only [Option.getD_some] at h0
      exact absurd ((List.toFinset_eq_empty_iff ci).mp h0) hcine
    | arr l =>
      rw [iac_mc_arr q hty l, hci] at hc
      have h0 := of_decide_eq_true hc
      simp only [Option.getD_some] at h0
      obtain ⟨hcard, hsub⟩ := h0
      exact questionScore_mc_eqset q ci hty hci l
        (Finset.eq_of_subset_of_card_le hsub (le_of_eq hcard.symm))
  · -- NUMERICAL
    cases ua with
    | nullA => rw [iac_nullA] at hc; cases hc
    | arr l => rw [iac_num_arr q hty l] at hc; cases hc
    | num x =>
      rw [iac_num_num q hty x] at hc
      rw [questionScore_num_num q hty x, if_pos (of_decide_eq_true hc)]
  · -- SUBJECTIVE
    rw [iac_subj q hty ua] at hc; cases hc

/-- Witness for C10: the SingleChoice question with correct index 1 and
the fully correct answer `[1]` scores 4. -/
theorem fullyCorrect_implies_four_witness :
    isAnswerCompletelyCorrect exSC1 (.arr [1]) = true ∧
    questionScore exSC1 (.arr [1]) = 4 :=
  ⟨by decide,
    fullyCorrect_implies_four exSC1 (.arr [1])
      ⟨fun _ => ⟨1, rfl⟩, fun h => absurd h (by decide), fun h => absurd h (by decide)⟩
      (by decide)⟩

end EduQuiz
